import Mathlib

/-!
Verification development for the raydium pool monitor.

The embedding follows the source files:
* `mointor.rs` — `MonitorService` and its per-item tick loop;
* `raydium_pool.rs` — `PoolMonitor` (historical data and change metrics) and
  the alert section of `format_pool_data`.

Floating point: `f64` values are modelled by `F64`, rationals extended with
the two infinities and a NaN.  Finite arithmetic is modelled as exact rational
arithmetic; every concrete finite computation in this development
(differences, quotients and percentages of small integers, and the always
exact cases x - x, 0 / x, 0 * c) is exactly representable in binary64 and
incurs no rounding there, so the model agrees with IEEE-754 on all cases
used.  The model identifies -0.0 with 0.0, which is sound here because f64
equality and the comparisons appearing in the source do not distinguish them.

Time: `chrono::DateTime<Utc>` is modelled by `Int`, counted in seconds, so
`Duration::minutes(5) = 300`, `Duration::hours(24) = 86400` and
`Duration::days(7) = 604800`.
-/

/-- Model of `f64`: finite rationals plus the IEEE special values. -/
inductive F64 where
  | fin : ℚ → F64
  | inf : F64
  | negInf : F64
  | nan : F64
deriving DecidableEq

/-- IEEE-754 subtraction on the model (exact on finite values). -/
def F64.sub : F64 → F64 → F64
  | nan, _ => nan
  | _, nan => nan
  | fin x, fin y => fin (x - y)
  | fin _, inf => negInf
  | fin _, negInf => inf
  | inf, fin _ => inf
  | negInf, fin _ => negInf
  | inf, negInf => inf
  | negInf, inf => negInf
  | inf, inf => nan
  | negInf, negInf => nan

/-- IEEE-754 division on the model: a nonzero finite value divided by zero
gives a signed infinity, `0 / 0` gives NaN (the zero here stands for `+0.0`;
the source never produces `-0.0` in a divisor position). -/
def F64.div : F64 → F64 → F64
  | nan, _ => nan
  | _, nan => nan
  | fin x, fin y =>
      if y = 0 then (if x = 0 then nan else if 0 < x then inf else negInf)
      else fin (x / y)
  | fin _, inf => fin 0
  | fin _, negInf => fin 0
  | inf, fin y => if 0 ≤ y then inf else negInf
  | negInf, fin y => if 0 ≤ y then negInf else inf
  | inf, inf => nan
  | inf, negInf => nan
  | negInf, inf => nan
  | negInf, negInf => nan

/-- IEEE-754 multiplication on the model (exact on finite values). -/
def F64.mul : F64 → F64 → F64
  | nan, _ => nan
  | _, nan => nan
  | fin x, fin y => fin (x * y)
  | fin x, inf => if x = 0 then nan else if 0 < x then inf else negInf
  | fin x, negInf => if x = 0 then nan else if 0 < x then negInf else inf
  | inf, fin y => if y = 0 then nan else if 0 < y then inf else negInf
  | negInf, fin y => if y = 0 then nan else if 0 < y then negInf else inf
  | inf, inf => inf
  | inf, negInf => negInf
  | negInf, inf => negInf
  | negInf, negInf => inf

/-- `f64::abs`. -/
def F64.abs : F64 → F64
  | fin x => fin |x|
  | inf => inf
  | negInf => inf
  | nan => nan

/-- The f64 comparison `a > b`: false whenever either side is NaN. -/
def F64.gt : F64 → F64 → Bool
  | nan, _ => false
  | _, nan => false
  | fin x, fin y => decide (y < x)
  | inf, inf => false
  | inf, _ => true
  | _, inf => false
  | negInf, _ => false
  | fin _, negInf => true

/-- `PoolMonitor::calculate_change` (raydium_pool.rs lines 60-62):
`((new_value - old_value) / old_value) * 100.0`. -/
def calculate_change (old_value new_value : F64) : F64 :=
  ((new_value.sub old_value).div old_value).mul (F64.fin 100)

/-- `HistoricalData` (raydium_pool.rs lines 24-30). -/
structure HistoricalData where
  volume_24h : F64
  price : F64
  tvl : F64
  timestamp : ℤ
deriving DecidableEq

/-- `PoolInfo` (raydium_pool.rs lines 9-21). -/
structure PoolInfo where
  id : String
  symbol_a : String
  symbol_a_address : String
  symbol_b : String
  symbol_b_address : String
  symbol_b_decimals : ℕ
  volume_24h : F64
  tvl : F64
  price : F64
  timestamp : ℤ
deriving DecidableEq

/-- `ChangeMetrics` (raydium_pool.rs lines 33-44). -/
structure ChangeMetrics where
  volume_change_5m : F64
  volume_change_15m : F64
  volume_change_1h : F64
  volume_change_24h : F64
  price_change_5m : F64
  price_change_15m : F64
  price_change_1h : F64
  price_change_24h : F64
  tvl_change_24h : F64
deriving DecidableEq

/-- The `HashMap<String, Vec<HistoricalData>>` behind
`PoolMonitor::historical_data`, modelled as an association list whose keys are
kept unique by `storeSet`. -/
abbrev Store := List (String × List HistoricalData)

/-- `HashMap::get` on the store. -/
def storeGet (s : Store) (id : String) : Option (List HistoricalData) :=
  (s.find? (fun kv => decide (kv.1 = id))).map (fun kv => kv.2)

/-- Writing an entry back into the store (`entry(..).or_insert_with(..)`
followed by the in-place mutation of the vector). -/
def storeSet (s : Store) (id : String) (v : List HistoricalData) : Store :=
  match s with
  | [] => [(id, v)]
  | kv :: rest => if kv.1 = id then (id, v) :: rest else kv :: storeSet rest id v

/-- One window lookup of `get_changes` (raydium_pool.rs lines 82-85):
`pool_history.iter().rev().find(|r| r.timestamp <= target)`. -/
def selectRecord (pool_history : List HistoricalData) (target : ℤ) : Option HistoricalData :=
  pool_history.reverse.find? (fun r => decide (r.timestamp ≤ target))

/-- `PoolMonitor::get_changes` (raydium_pool.rs lines 65-116).  The `_minutes`
argument is present and unused, exactly as in the source. -/
def get_changes (s : Store) (pool_id : String) (_minutes : ℤ) : Option ChangeMetrics :=
  match storeGet s pool_id with
  | none => none
  | some pool_history =>
    if pool_history.isEmpty then none
    else
      match pool_history.getLast? with
      | none => none
      | some latest =>
        let time_5m := latest.timestamp - 300
        let time_15m := latest.timestamp - 900
        let time_1h := latest.timestamp - 3600
        let time_24h := latest.timestamp - 86400
        let record_5m := selectRecord pool_history time_5m
        let record_15m := selectRecord pool_history time_15m
        let record_1h := selectRecord pool_history time_1h
        let record_24h := selectRecord pool_history time_24h
        some
          { volume_change_5m :=
              (record_5m.map (fun r =>
                calculate_change r.volume_24h latest.volume_24h)).getD (F64.fin 0)
            volume_change_15m :=
              (record_15m.map (fun r =>
                calculate_change r.volume_24h latest.volume_24h)).getD (F64.fin 0)
            volume_change_1h :=
              (record_1h.map (fun r =>
                calculate_change r.volume_24h latest.volume_24h)).getD (F64.fin 0)
            volume_change_24h :=
              (record_24h.map (fun r =>
                calculate_change r.volume_24h latest.volume_24h)).getD (F64.fin 0)
            price_change_5m :=
              (record_5m.map (fun r =>
                calculate_change r.price latest.price)).getD (F64.fin 0)
            price_change_15m :=
              (record_15m.map (fun r =>
                calculate_change r.price latest.price)).getD (F64.fin 0)
            price_change_1h :=
              (record_1h.map (fun r =>
                calculate_change r.price latest.price)).getD (F64.fin 0)
            price_change_24h :=
              (record_24h.map (fun r =>
                calculate_change r.price latest.price)).getD (F64.fin 0)
            tvl_change_24h :=
              (record_24h.map (fun r =>
                calculate_change r.tvl latest.tvl)).getD (F64.fin 0) }

/-- `PoolMonitor::update_historical_data` (raydium_pool.rs lines 119-143).
The wall-clock `Utc::now()` read on line 134 is the explicit `now` argument;
note the source prunes with `Utc::now()`, not with the snapshot timestamp:
push the new record, then `retain(|record| record.timestamp > week_ago)` with
`week_ago = now - 7 days`. -/
def update_historical_data (now : ℤ) (s : Store) (pool_info : PoolInfo) : Store :=
  let pool_history := (storeGet s pool_info.id).getD []
  let pool_history := pool_history ++
    [{ volume_24h := pool_info.volume_24h
       price := pool_info.price
       tvl := pool_info.tvl
       timestamp := pool_info.timestamp }]
  let week_ago := now - 604800
  storeSet s pool_info.id (pool_history.filter (fun r => decide (week_ago < r.timestamp)))

/-- The price-alert check of `format_pool_data` (raydium_pool.rs line 265):
`changes.price_change_5m.abs() > price_alert` decides whether the price alert
line is appended; the appended-or-not outcome is modelled as a `Bool`. -/
def priceAlertFlag (changes : ChangeMetrics) (price_alert : F64) : Bool :=
  (changes.price_change_5m.abs).gt price_alert

/-- The volume-alert check of `format_pool_data` (raydium_pool.rs line 271):
`changes.volume_change_5m.abs() > volume_alert`. -/
def volumeAlertFlag (changes : ChangeMetrics) (volume_alert : F64) : Bool :=
  (changes.volume_change_5m.abs).gt volume_alert

/-!
The monitoring engine of `mointor.rs`.

The per-item task spawned by `MonitorService::run` (lines 91-133) is a loop
driven by a fixed-rate timer.  We model one item's task as a deterministic
state machine over tick indices: the `Instant` of a tick is its index, and the
outcome of the item's asynchronous probe at each tick is a function of the
tick index (the source probe takes no arguments; successive invocations may
return different results, which the index determinizes).

The broadcast send on lines 122-131 fails exactly when the channel has no
receiver, in which case the loop breaks; `subscriber` records whether a
receiver exists.  Nothing in the loop body (lines 93-132) reads the shutdown
channel: `run` binds its receiving end as the unused local `_shutdown_rx`
(line 75) and never moves it into any spawned task, so in the model the task
state carries no reference to it.
-/

/-- `MonitorStatus` (mointor.rs lines 13-18). -/
inductive MonitorStatus where
  | OK : String → MonitorStatus
  | Warning : String → MonitorStatus
  | Error : String → MonitorStatus
deriving DecidableEq

/-- `MonitorEvent` (mointor.rs lines 20-25); the `Instant` timestamp is the
tick index. -/
structure MonitorEvent where
  item_name : String
  status : MonitorStatus
  timestamp : ℕ
deriving DecidableEq

/-- `MonitorMetrics` (mointor.rs lines 35-40). -/
structure MonitorMetrics where
  last_check_time : ℕ
  last_status : MonitorStatus
  check_count : ℕ
  error_count : ℕ
deriving DecidableEq

/-- A probe (`check_fn`) as a function of the tick index: `Result<String>`
with the error rendered to a string, as on line 103. -/
abbrev Probe := ℕ → Except String String

/-- `matches!(status, MonitorStatus::Error(_))` (mointor.rs line 118). -/
def isErrorStatus : MonitorStatus → Bool
  | .Error _ => true
  | _ => false

/-- Lines 101-104: wrap the probe result in a status. -/
def tickStatus (probe : Probe) (t : ℕ) : MonitorStatus :=
  match probe t with
  | .ok message => .OK message
  | .error e => .Error e

/-- The state of one item's spawned task: its metrics entry, the events it
has successfully broadcast, and whether the loop has exited via the `break`
on line 130. -/
structure TaskState where
  metric : Option MonitorMetrics
  events : List MonitorEvent
  stopped : Bool
deriving DecidableEq

/-- State before the first tick: no metrics entry, nothing broadcast. -/
def initTaskState : TaskState := { metric := none, events := [], stopped := false }

/-- One iteration of the per-item loop (mointor.rs lines 93-132): take the
tick, run the probe, insert-or-update the metrics entry (lines 106-120), then
broadcast the event; if the send fails (no receiver) the loop breaks, after
the metrics were already updated. -/
def runTick (item_name : String) (probe : Probe) (subscriber : Bool) (t : ℕ)
    (st : TaskState) : TaskState :=
  if st.stopped then st
  else
    let status := tickStatus probe t
    let m0 := st.metric.getD
      { last_check_time := t, last_status := status, check_count := 0, error_count := 0 }
    let m1 : MonitorMetrics :=
      { last_check_time := t
        last_status := status
        check_count := m0.check_count + 1
        error_count := m0.error_count + (if isErrorStatus status then 1 else 0) }
    if subscriber then
      { metric := some m1
        events := st.events ++ [{ item_name := item_name, status := status, timestamp := t }]
        stopped := false }
    else
      { metric := some m1, events := st.events, stopped := true }

/-- The task after `n` ticks. -/
def runTicks (item_name : String) (probe : Probe) (subscriber : Bool) : ℕ → TaskState
  | 0 => initTaskState
  | n + 1 => runTick item_name probe subscriber n (runTicks item_name probe subscriber n)

/-- The item's `check_count` as read from the metrics store (0 before the
entry is first inserted). -/
def checkCountOf (st : TaskState) : ℕ :=
  (st.metric.map (fun m => m.check_count)).getD 0

/-- The item's `error_count` as read from the metrics store. -/
def errorCountOf (st : TaskState) : ℕ :=
  (st.metric.map (fun m => m.error_count)).getD 0

/-- The lifecycle-relevant state of a `MonitorService` with one registered
item (mointor.rs lines 42-47): whether the shutdown sender created by `run`
(line 75) is still held, and the item task's state. -/
structure ServiceState where
  shutdown_tx : Option Unit
  task : TaskState
deriving DecidableEq

/-- `MonitorService::new` followed by `run` (lines 74-142): `run` creates the
shutdown channel, stores the sender, binds the receiver as the unused local
`_shutdown_rx`, and spawns the item task in its initial state. -/
def runService : ServiceState :=
  { shutdown_tx := some (), task := initTaskState }

/-- `MonitorService::stop` (lines 144-149): take the stored sender and send
`()` on it.  The receiving end was dropped inside `run` without ever being
read by any task, so the send has no effect on the task state. -/
def stopService (s : ServiceState) : ServiceState :=
  { s with shutdown_tx := none }

/-- One timer tick of the spawned item task while the service is in whatever
lifecycle state `s` records: the loop body does not consult `shutdown_tx`. -/
def tickService (item_name : String) (probe : Probe) (subscriber : Bool) (t : ℕ)
    (s : ServiceState) : ServiceState :=
  { s with task := runTick item_name probe subscriber t s.task }

/-! Helper lemmas. -/

lemma storeGet_storeSet_self (s : Store) (id : String) (v : List HistoricalData) :
    storeGet (storeSet s id v) id = some v := by
  induction s with
  | nil => simp [storeSet, storeGet]
  | cons kv rest ih =>
    by_cases h : kv.1 = id
    · simp [storeSet, h, storeGet]
    · simpa [storeSet, h, storeGet, List.find?] using ih

lemma find?_desc_max (p : HistoricalData → Bool) :
    ∀ (l : List HistoricalData) (r : HistoricalData),
      l.Pairwise (fun a b => b.timestamp ≤ a.timestamp) →
      l.find? p = some r →
      ∀ x ∈ l, p x = true → x.timestamp ≤ r.timestamp := by
  intro l
  induction l with
  | nil => intro r _ hfind; simp at hfind
  | cons a t ih =>
    intro r hpw hfind x hx hpx
    rcases List.pairwise_cons.mp hpw with ⟨ha, ht⟩
    cases hpa : p a with
    | true =>
      rw [List.find?_cons_of_pos _ hpa] at hfind
      injection hfind with he
      subst he
      rcases List.mem_cons.mp hx with hxa | hxt
      · exact le_of_eq (congrArg HistoricalData.timestamp hxa)
      · exact ha x hxt
    | false =>
      rw [List.find?_cons_of_neg _ (by simp [hpa])] at hfind
      rcases List.mem_cons.mp hx with hxa | hxt
      · subst hxa; rw [hpx] at hpa; cases hpa
      · exact ih r ht hfind x hxt hpx

lemma getLast?_isEmpty_false {h : List HistoricalData} {a : HistoricalData}
    (hl : h.getLast? = some a) : h.isEmpty = false := by
  cases h with
  | nil => simp at hl
  | cons _ _ => rfl

lemma get_changes_some (s : Store) (id : String) (mins : ℤ)
    (h : List HistoricalData) (latest : HistoricalData)
    (hget : storeGet s id = some h) (hlast : h.getLast? = some latest) :
    get_changes s id mins = some
      { volume_change_5m := ((selectRecord h (latest.timestamp - 300)).map (fun r =>
          calculate_change r.volume_24h latest.volume_24h)).getD (F64.fin 0)
        volume_change_15m := ((selectRecord h (latest.timestamp - 900)).map (fun r =>
          calculate_change r.volume_24h latest.volume_24h)).getD (F64.fin 0)
        volume_change_1h := ((selectRecord h (latest.timestamp - 3600)).map (fun r =>
          calculate_change r.volume_24h latest.volume_24h)).getD (F64.fin 0)
        volume_change_24h := ((selectRecord h (latest.timestamp - 86400)).map (fun r =>
          calculate_change r.volume_24h latest.volume_24h)).getD (F64.fin 0)
        price_change_5m := ((selectRecord h (latest.timestamp - 300)).map (fun r =>
          calculate_change r.price latest.price)).getD (F64.fin 0)
        price_change_15m := ((selectRecord h (latest.timestamp - 900)).map (fun r =>
          calculate_change r.price latest.price)).getD (F64.fin 0)
        price_change_1h := ((selectRecord h (latest.timestamp - 3600)).map (fun r =>
          calculate_change r.price latest.price)).getD (F64.fin 0)
        price_change_24h := ((selectRecord h (latest.timestamp - 86400)).map (fun r =>
          calculate_change r.price latest.price)).getD (F64.fin 0)
        tvl_change_24h := ((selectRecord h (latest.timestamp - 86400)).map (fun r =>
          calculate_change r.tvl latest.tvl)).getD (F64.fin 0) } := by
  have hne : h.isEmpty = false := getLast?_isEmpty_false hlast
  simp [get_changes, hget, hne, hlast]

lemma runTick_counts (item_name : String) (probe : Probe) (sub : Bool) (t : ℕ)
    (st : TaskState) (hstop : st.stopped = false) :
    checkCountOf (runTick item_name probe sub t st) = checkCountOf st + 1 ∧
    errorCountOf (runTick item_name probe sub t st)
      = errorCountOf st + (if isErrorStatus (tickStatus probe t) then 1 else 0) := by
  cases hm : st.metric <;> cases sub <;>
    simp [runTick, hstop, hm, checkCountOf, errorCountOf]

lemma runTick_events_subscriber (item_name : String) (probe : Probe) (t : ℕ)
    (st : TaskState) (hstop : st.stopped = false) :
    (runTick item_name probe true t st).events
      = st.events ++ [{ item_name := item_name, status := tickStatus probe t, timestamp := t }] ∧
    (runTick item_name probe true t st).stopped = false := by
  simp [runTick, hstop]

/-! Claim theorems. -/

/-- Claim C10: `calculate_change(x, x) = 0.0` for every finite non-zero `x`:
comparing a snapshot against an identical value always yields exactly a zero
percentage change. -/
theorem calculate_change_identity_zero (x : ℚ) (hx : x ≠ 0) :
    calculate_change (F64.fin x) (F64.fin x) = F64.fin 0 := by
  simp [calculate_change, F64.sub, F64.div, F64.mul, hx]

theorem calculate_change_identity_zero_witness :
    (3 : ℚ) ≠ 0 ∧ calculate_change (F64.fin 3) (F64.fin 3) = F64.fin 0 :=
  ⟨by norm_num, calculate_change_identity_zero 3 (by norm_num)⟩

/-- Claim C3 (code bug): `calculate_change` has no guard for a zero baseline:
`calculate_change(0.0, 50.0)` is the raw division result, positive infinity,
and a metrics record carrying that value into the alert comparison of
`format_pool_data` makes the comparison fire, so the non-finite value
propagates into alert comparisons. -/
theorem calculate_change_zero_baseline_unguarded :
    calculate_change (F64.fin 0) (F64.fin 50) = F64.inf ∧
    priceAlertFlag
      { volume_change_5m := F64.fin 0, volume_change_15m := F64.fin 0,
        volume_change_1h := F64.fin 0, volume_change_24h := F64.fin 0,
        price_change_5m := calculate_change (F64.fin 0) (F64.fin 50),
        price_change_15m := F64.fin 0, price_change_1h := F64.fin 0,
        price_change_24h := F64.fin 0, tvl_change_24h := F64.fin 0 }
      (F64.fin 5) = true := by
  constructor
  · norm_num [calculate_change, F64.sub, F64.div, F64.mul]
  · norm_num [priceAlertFlag, calculate_change, F64.sub, F64.div, F64.mul, F64.abs, F64.gt]

/-- Claim C8: alert evaluation is a pure function of the computed
`ChangeMetrics` and the two thresholds: the 5-minute price (volume) change is
flagged exactly when its absolute value exceeds the price (volume) threshold,
and two metrics records agreeing on a 5-minute field produce identical flags
whatever their other fields hold. -/
theorem alert_flags_pure (m m' : ChangeMetrics) (pa va : F64) (x t : ℚ) :
    (m.price_change_5m = F64.fin x → pa = F64.fin t →
      (priceAlertFlag m pa = true ↔ |x| > t)) ∧
    (m.volume_change_5m = F64.fin x → va = F64.fin t →
      (volumeAlertFlag m va = true ↔ |x| > t)) ∧
    (m.price_change_5m = m'.price_change_5m →
      priceAlertFlag m pa = priceAlertFlag m' pa) ∧
    (m.volume_change_5m = m'.volume_change_5m →
      volumeAlertFlag m va = volumeAlertFlag m' va) := by
  refine ⟨?_, ?_, ?_, ?_⟩
  · intro h1 h2
    simp only [priceAlertFlag, h1, h2, F64.abs, F64.gt]
    simp [decide_eq_true_iff]
  · intro h1 h2
    simp only [volumeAlertFlag, h1, h2, F64.abs, F64.gt]
    simp [decide_eq_true_iff]
  · intro h; simp only [priceAlertFlag, h]
  · intro h; simp only [volumeAlertFlag, h]

theorem alert_flags_pure_witness :
    priceAlertFlag
      { volume_change_5m := F64.fin 0, volume_change_15m := F64.fin 0,
        volume_change_1h := F64.fin 0, volume_change_24h := F64.fin 0,
        price_change_5m := F64.fin 10, price_change_15m := F64.fin 0,
        price_change_1h := F64.fin 0, price_change_24h := F64.fin 0,
        tvl_change_24h := F64.fin 0 } (F64.fin 5) = true :=
  ((alert_flags_pure
      { volume_change_5m := F64.fin 0, volume_change_15m := F64.fin 0,
        volume_change_1h := F64.fin 0, volume_change_24h := F64.fin 0,
        price_change_5m := F64.fin 10, price_change_15m := F64.fin 0,
        price_change_1h := F64.fin 0, price_change_24h := F64.fin 0,
        tvl_change_24h := F64.fin 0 }
      { volume_change_5m := F64.fin 0, volume_change_15m := F64.fin 0,
        volume_change_1h := F64.fin 0, volume_change_24h := F64.fin 0,
        price_change_5m := F64.fin 10, price_change_15m := F64.fin 0,
        price_change_1h := F64.fin 0, price_change_24h := F64.fin 0,
        tvl_change_24h := F64.fin 0 }
      (F64.fin 5) (F64.fin 5) 10 5).1 rfl rfl).mpr (by norm_num)

/-- Claim C4: on a time-sorted series `get_changes` selects, per lookback
window, the freshest entry whose timestamp is at or before
`latest.timestamp - w` (scanning most-recent to least-recent); on the
concrete series with snapshots at t=0 (volume 100), t=5m (volume 150) and
t=24h+1s (volume 300) it yields volume_change_5m = 100.0 and
volume_change_24h = 200.0. -/
theorem get_changes_window_selection :
    (∀ (h : List HistoricalData) (target : ℤ) (r : HistoricalData),
        h.Pairwise (fun a b => a.timestamp ≤ b.timestamp) →
        selectRecord h target = some r →
        r ∈ h ∧ r.timestamp ≤ target ∧
          ∀ x ∈ h, x.timestamp ≤ target → x.timestamp ≤ r.timestamp) ∧
    (get_changes
        [("pool",
          [{ volume_24h := F64.fin 100, price := F64.fin 1, tvl := F64.fin 1, timestamp := 0 },
           { volume_24h := F64.fin 150, price := F64.fin 1, tvl := F64.fin 1, timestamp := 300 },
           { volume_24h := F64.fin 300, price := F64.fin 1, tvl := F64.fin 1,
             timestamp := 86401 }])]
        "pool" 5).map (fun m => (m.volume_change_5m, m.volume_change_24h))
      = some (F64.fin 100, F64.fin 200) := by
  constructor
  · intro h target r hsorted hsel
    simp only [selectRecord] at hsel
    have hrev : h.reverse.Pairwise (fun a b => b.timestamp ≤ a.timestamp) :=
      List.pairwise_reverse.mpr hsorted
    have hmem : r ∈ h := List.mem_reverse.mp (List.mem_of_find?_eq_some hsel)
    have hrle : r.timestamp ≤ target := by
      have hps := List.find?_some hsel
      simpa using hps
    refine ⟨hmem, hrle, ?_⟩
    intro x hx hxle
    exact find?_desc_max _ h.reverse r hrev hsel x (List.mem_reverse.mpr hx)
      (decide_eq_true hxle)
  · norm_num [get_changes, storeGet, selectRecord, List.find?, calculate_change,
      F64.sub, F64.div, F64.mul, List.getLast?]

theorem get_changes_window_selection_witness :
    (⟨F64.fin 150, F64.fin 1, F64.fin 1, 300⟩ : HistoricalData) ∈
      [(⟨F64.fin 100, F64.fin 1, F64.fin 1, 0⟩ : HistoricalData),
       ⟨F64.fin 150, F64.fin 1, F64.fin 1, 300⟩,
       ⟨F64.fin 300, F64.fin 1, F64.fin 1, 86401⟩] ∧
    (⟨F64.fin 150, F64.fin 1, F64.fin 1, 300⟩ : HistoricalData).timestamp ≤ 86101 ∧
    (⟨F64.fin 100, F64.fin 1, F64.fin 1, 0⟩ : HistoricalData).timestamp ≤
      (⟨F64.fin 150, F64.fin 1, F64.fin 1, 300⟩ : HistoricalData).timestamp := by
  obtain ⟨h1, h2, h3⟩ := get_changes_window_selection.1
    [⟨F64.fin 100, F64.fin 1, F64.fin 1, 0⟩, ⟨F64.fin 150, F64.fin 1, F64.fin 1, 300⟩,
     ⟨F64.fin 300, F64.fin 1, F64.fin 1, 86401⟩] 86101
    ⟨F64.fin 150, F64.fin 1, F64.fin 1, 300⟩
    (by norm_num [List.pairwise_cons])
    (by norm_num [selectRecord, List.find?])
  exact ⟨h1, h2, h3 ⟨F64.fin 100, F64.fin 1, F64.fin 1, 0⟩ (by simp) (by norm_num)⟩

/-- Claim C5: for every non-empty series, whenever a lookback window has no
entry at or before `latest.timestamp - w`, `get_changes` reports the change
for that window as exactly 0.0 inside a returned `ChangeMetrics` — neither an
error nor an absent field. -/
theorem missing_window_record_defaults_zero (s : Store) (id : String) (mins : ℤ)
    (h : List HistoricalData) (latest : HistoricalData)
    (hget : storeGet s id = some h) (hlast : h.getLast? = some latest) :
    ∃ m, get_changes s id mins = some m ∧
      (selectRecord h (latest.timestamp - 300) = none →
        m.volume_change_5m = F64.fin 0 ∧ m.price_change_5m = F64.fin 0) ∧
      (selectRecord h (latest.timestamp - 900) = none →
        m.volume_change_15m = F64.fin 0 ∧ m.price_change_15m = F64.fin 0) ∧
      (selectRecord h (latest.timestamp - 3600) = none →
        m.volume_change_1h = F64.fin 0 ∧ m.price_change_1h = F64.fin 0) ∧
      (selectRecord h (latest.timestamp - 86400) = none →
        m.volume_change_24h = F64.fin 0 ∧ m.price_change_24h = F64.fin 0 ∧
          m.tvl_change_24h = F64.fin 0) := by
  refine ⟨_, get_changes_some s id mins h latest hget hlast, ?_, ?_, ?_, ?_⟩ <;>
    intro hnone <;> simp [hnone]

theorem missing_window_record_defaults_zero_witness :
    ∃ m, get_changes [("q", [⟨F64.fin 5, F64.fin 7, F64.fin 9, 1000⟩])] "q" 5 = some m ∧
      m.volume_change_5m = F64.fin 0 ∧ m.price_change_5m = F64.fin 0 := by
  obtain ⟨m, hm, h5, _, _, _⟩ :=
    missing_window_record_defaults_zero
      [("q", [⟨F64.fin 5, F64.fin 7, F64.fin 9, 1000⟩])] "q" 5
      [⟨F64.fin 5, F64.fin 7, F64.fin 9, 1000⟩] ⟨F64.fin 5, F64.fin 7, F64.fin 9, 1000⟩
      (by simp [storeGet]) (by simp)
  exact ⟨m, hm, h5 (by norm_num [selectRecord, List.find?])⟩

/-- Claim C6: `get_changes` returns `None` exactly when the series for the id
is absent or empty; on a non-empty series it returns `Some` metrics whose
reference point is the series' last snapshot. -/
theorem get_changes_none_iff (s : Store) (id : String) (mins : ℤ) :
    (get_changes s id mins = none ↔ storeGet s id = none ∨ storeGet s id = some []) ∧
    (∀ (h : List HistoricalData) (latest : HistoricalData),
        storeGet s id = some h → h.getLast? = some latest →
        ∃ m, get_changes s id mins = some m ∧
          m.volume_change_5m =
            ((selectRecord h (latest.timestamp - 300)).map (fun r =>
              calculate_change r.volume_24h latest.volume_24h)).getD (F64.fin 0)) := by
  constructor
  · cases hget : storeGet s id with
    | none => simp [get_changes, hget]
    | some h =>
      cases h with
      | nil => simp [get_changes, hget]
      | cons a t =>
        have hsome : ∃ la, (a :: t).getLast? = some la := by
          cases hq : (a :: t).getLast? with
          | none => exact absurd (List.getLast?_eq_none_iff.mp hq) (by simp)
          | some la => exact ⟨la, rfl⟩
        obtain ⟨la, hla⟩ := hsome
        rw [get_changes_some s id mins (a :: t) la hget hla]
        simp [hget]
  · intro h latest hget hlast
    exact ⟨_, get_changes_some s id mins h latest hget hlast, by simp⟩

theorem get_changes_none_iff_witness :
    get_changes ([] : Store) "x" 5 = none ∧
    ∃ m, get_changes [("y", [⟨F64.fin 2, F64.fin 3, F64.fin 4, 50⟩])] "y" 5 = some m := by
  constructor
  · exact (get_changes_none_iff [] "x" 5).1.mpr (Or.inl rfl)
  · obtain ⟨m, hm, _⟩ := (get_changes_none_iff
      [("y", [⟨F64.fin 2, F64.fin 3, F64.fin 4, 50⟩])] "y" 5).2
      [⟨F64.fin 2, F64.fin 3, F64.fin 4, 50⟩] ⟨F64.fin 2, F64.fin 3, F64.fin 4, 50⟩
      (by simp [storeGet]) (by simp)
    exact ⟨m, hm⟩

/-- A pool snapshot at timestamp 300000 for the C2 counterexample. -/
def poolSnapEarly : PoolInfo :=
  { id := "p", symbol_a := "A", symbol_a_address := "a", symbol_b := "B",
    symbol_b_address := "b", symbol_b_decimals := 6, volume_24h := F64.fin 1,
    tvl := F64.fin 1, price := F64.fin 1, timestamp := 300000 }

/-- A pool snapshot at timestamp 950000 for the C2 counterexample. -/
def poolSnapLate : PoolInfo :=
  { id := "p", symbol_a := "A", symbol_a_address := "a", symbol_b := "B",
    symbol_b_address := "b", symbol_b_decimals := 6, volume_24h := F64.fin 1,
    tvl := F64.fin 1, price := F64.fin 1, timestamp := 950000 }

/-- Claim C2 (counterexample): with wall-clock `now = 864000` at both calls
and snapshots recorded at the monotonically increasing timestamps 300000 and
950000, the resulting series keeps the entry at timestamp 300000 even though
it is older than 7 days relative to the latest appended timestamp
(300000 < 950000 - 604800): pruning is not relative to the snapshot's own
timestamp. -/
theorem record_snapshot_prune_cex :
    poolSnapEarly.timestamp < poolSnapLate.timestamp ∧
    (storeGet
        (update_historical_data 864000
          (update_historical_data 864000 [] poolSnapEarly) poolSnapLate) "p").getD []
      = [⟨F64.fin 1, F64.fin 1, F64.fin 1, 300000⟩,
         ⟨F64.fin 1, F64.fin 1, F64.fin 1, 950000⟩] ∧
    (300000 : ℤ) < 950000 - 604800 := by
  refine ⟨by norm_num [poolSnapEarly, poolSnapLate], ?_, by norm_num⟩
  norm_num [poolSnapEarly, poolSnapLate, update_historical_data, storeGet, storeSet,
    List.find?, List.filter]

/-- Claim C2 (amended): `update_historical_data` appends the snapshot and
then prunes relative to the wall-clock `now` of the call: every entry of the
recorded pool's resulting series has a timestamp strictly newer than
`now - 7 days`. -/
theorem record_prunes_relative_to_wallclock (now : ℤ) (s : Store) (p : PoolInfo)
    (r : HistoricalData)
    (hr : r ∈ (storeGet (update_historical_data now s p) p.id).getD []) :
    now - 604800 < r.timestamp := by
  simp only [update_historical_data, storeGet_storeSet_self, Option.getD_some] at hr
  have := (List.mem_filter.mp hr).2
  simpa using this

theorem record_prunes_relative_to_wallclock_witness :
    (950000 : ℤ) - 604800 <
      (⟨F64.fin 1, F64.fin 1, F64.fin 1, 950000⟩ : HistoricalData).timestamp :=
  record_prunes_relative_to_wallclock 950000 [] poolSnapLate
    ⟨F64.fin 1, F64.fin 1, F64.fin 1, 950000⟩
    (by norm_num [poolSnapLate, update_historical_data, storeGet, storeSet,
      List.find?, List.filter])

/-- Claim C7: an always-failing probe still yields exactly one Error event
per tick and increments both counters each tick, so after any number n of
ticks (with a live subscriber) the item's error_count and check_count both
equal n, every broadcast event is an Error, and the loop has not halted. -/
theorem failing_probe_keeps_counting (item_name : String) (probe : Probe)
    (hfail : ∀ t, ∃ e, probe t = .error e) (n : ℕ) :
    checkCountOf (runTicks item_name probe true n) = n ∧
    errorCountOf (runTicks item_name probe true n) = n ∧
    (runTicks item_name probe true n).events.length = n ∧
    (∀ ev ∈ (runTicks item_name probe true n).events, isErrorStatus ev.status = true) ∧
    (runTicks item_name probe true n).stopped = false := by
  induction n with
  | zero => simp [runTicks, initTaskState, checkCountOf, errorCountOf]
  | succ n ih =>
    obtain ⟨hc, he, hl, hall, hs⟩ := ih
    obtain ⟨e, hpe⟩ := hfail n
    have herr : isErrorStatus (tickStatus probe n) = true := by
      simp [tickStatus, hpe, isErrorStatus]
    obtain ⟨hc', he'⟩ := runTick_counts item_name probe true n _ hs
    obtain ⟨hev, hst⟩ := runTick_events_subscriber item_name probe n _ hs
    refine ⟨?_, ?_, ?_, ?_, ?_⟩
    · simp only [runTicks]; rw [hc', hc]
    · simp only [runTicks]; rw [he', he, herr]; simp
    · simp only [runTicks]; rw [hev]; simp [hl]
    · simp only [runTicks]; rw [hev]
      intro ev hmem
      rcases List.mem_append.mp hmem with h1 | h2
      · exact hall ev h1
      · rw [List.mem_singleton.mp h2]; exact herr
    · simp only [runTicks]; exact hst

theorem failing_probe_keeps_counting_witness :
    checkCountOf (runTicks "pools" (fun _ => Except.error "down") true 3) = 3 ∧
    errorCountOf (runTicks "pools" (fun _ => Except.error "down") true 3) = 3 := by
  obtain ⟨hc, he, -, -, -⟩ := failing_probe_keeps_counting "pools"
    (fun _ => Except.error "down") (fun _ => ⟨"down", rfl⟩) 3
  exact ⟨hc, he⟩

/-- Claim C9: the per-item metrics invariant error_count ≤ check_count holds
after every tick, and each tick handler increments check_count by exactly 1
and error_count by 1 exactly when the tick's status is Error, starting from a
freshly inserted metrics entry with both counters 0. -/
theorem metrics_error_le_check :
    (∀ (item_name : String) (probe : Probe) (subscriber : Bool) (n : ℕ),
        errorCountOf (runTicks item_name probe subscriber n)
          ≤ checkCountOf (runTicks item_name probe subscriber n)) ∧
    (∀ (item_name : String) (probe : Probe) (subscriber : Bool) (t : ℕ) (st : TaskState),
        st.stopped = false →
        checkCountOf (runTick item_name probe subscriber t st) = checkCountOf st + 1 ∧
        errorCountOf (runTick item_name probe subscriber t st)
          = errorCountOf st + (if isErrorStatus (tickStatus probe t) then 1 else 0)) := by
  constructor
  · intro item_name probe subscriber n
    induction n with
    | zero => simp [runTicks, initTaskState, checkCountOf, errorCountOf]
    | succ n ih =>
      cases hs : (runTicks item_name probe subscriber n).stopped with
      | true => simpa [runTicks, runTick, hs] using ih
      | false =>
        obtain ⟨hc, he⟩ := runTick_counts item_name probe subscriber n _ hs
        simp only [runTicks]
        rw [hc, he]
        cases isErrorStatus (tickStatus probe n) <;> simp <;> omega
  · intro item_name probe subscriber t st hstop
    exact runTick_counts item_name probe subscriber t st hstop

theorem metrics_error_le_check_witness :
    errorCountOf (runTicks "pools" (fun _ => Except.ok "fine") true 2)
      ≤ checkCountOf (runTicks "pools" (fun _ => Except.ok "fine") true 2) ∧
    checkCountOf (runTick "pools" (fun _ => Except.ok "fine") true 0 initTaskState)
      = checkCountOf initTaskState + 1 :=
  ⟨metrics_error_le_check.1 "pools" (fun _ => Except.ok "fine") true 2,
   (metrics_error_le_check.2 "pools" (fun _ => Except.ok "fine") true 0 initTaskState rfl).1⟩

/-- Claim C1 (code bug): `run()` followed by `stop()` does not bound the
published events to one per item.  `stop()` only takes the stored sender and
sends `()` on the shutdown channel, whose receiving end was bound inside
`run` as the unused local `_shutdown_rx` and never read by any per-item task;
the loop body has no cancellation check, so the task keeps broadcasting on
every later tick: with one registered item, an always-Ok probe and a live
subscriber, two ticks after `stop()` two events have been published. -/
theorem stop_leaves_ticks_running :
    (stopService runService).shutdown_tx = none ∧
    (tickService "pools" (fun _ => Except.ok "fine") true 1
        (tickService "pools" (fun _ => Except.ok "fine") true 0
          (stopService runService))).task.events.length = 2 := by
  constructor
  · rfl
  · rfl
